import Mathlib

/-!
Verification of the BlueScript static type checker
(`src/server/src/transpiler/type-checker.ts`) against its natural-language
specification.  The checker's AST traversal is shallowly embedded: each
handler of the `TypeChecker` / `ConstructorChecker` visitor that the claims
touch is translated into an executable Lean function over an explicit
checker state.  The type lattice (`types.ts`), the name-table family
(`names.ts`), the error log (`utils.ts`) and `actualElementType`
(`code-generator/c-runtime.ts`) are not part of the source tree under
verification; those definitions are modelled from the specification text
and are marked as such in their doc comments.
-/

namespace BlueScript

mutual
/-- Modelled from the spec: the static types of `types.ts` (not under
`src/`).  Primitive scalars `integer`, `float`, `boolean`, `string`,
`void`, `null` (unifying `null` and `undefined`) and `any`; the root
object type; named instance types carrying a reference to their
superclass; function types (return type plus ordered parameter types);
array types (element type); and optional types wrapping an element type.
Instance types in the source also carry property/method tables and a leaf
flag, which no claim in this development inspects, so only the superclass
reference is kept.  Parameter lists are a mutually defined list type so
that decidable equality is derivable. -/
inductive StaticType where
  | integer
  | float
  | boolean
  | stringT
  | void
  | null
  | any
  | objectT
  | instanceTy (name : String) (superclass : StaticType)
  | func (ret : StaticType) (params : TypeList)
  | array (element : StaticType)
  | optional (element : StaticType)
deriving DecidableEq, Repr
/-- The ordered parameter types of a function type. -/
inductive TypeList where
  | nil
  | cons (head : StaticType) (tail : TypeList)
deriving DecidableEq, Repr
end

/-- Modelled from the spec: `isNumeric` from `types.ts` (not under `src/`):
"true for `integer`, `float`". -/
def isNumeric : StaticType → Bool
  | .integer => true
  | .float => true
  | _ => false

/-- Modelled from the spec: `isPrimitiveType` from `types.ts` (not under
`src/`): "true for the scalars enumerated above", i.e. `integer`, `float`,
`boolean`, `string`, `void`, `null`, `any`. -/
def isPrimitiveType : StaticType → Bool
  | .integer => true
  | .float => true
  | .boolean => true
  | .stringT => true
  | .void => true
  | .null => true
  | .any => true
  | _ => false

/-- Modelled from the spec: `isConsistent` from `types.ts` (not under
`src/`): "gradual-typing compatibility.  True whenever `any` is involved
on either side, or `s` equals `t`." -/
def isConsistent (s t : StaticType) : Bool :=
  decide (s = StaticType.any ∨ t = StaticType.any ∨ s = t)

mutual
/-- Structural size of a static type, used to bound the recursion depth of
the subtype relation. -/
def StaticType.tsize : StaticType → Nat
  | .instanceTy _ sup => 1 + StaticType.tsize sup
  | .func r ps => 1 + StaticType.tsize r + TypeList.tsize ps
  | .array e => 1 + StaticType.tsize e
  | .optional e => 1 + StaticType.tsize e
  | _ => 1
/-- Structural size of a parameter list. -/
def TypeList.tsize : TypeList → Nat
  | .nil => 0
  | .cons h t => StaticType.tsize h + TypeList.tsize t
end

mutual
/-- Modelled from the spec: `isSubtype` from `types.ts` (not under `src/`),
written with an explicit recursion-depth argument so that concrete
instances evaluate by kernel reduction.  The relation is: "reflexive;
primitives only subtype themselves; instance types subtype along the
declared superclass chain; function types are contravariant in
parameters, covariant in return type (the parameter lists must have equal
length); array types are invariant; `T` is a subtype of `optional T`"; in
addition the value set of `optional T` is "element ∪ {null}", and the
repository's own test suite assigns `undefined` to an optional-typed
variable, so `null` is also a subtype of every optional type. -/
def isSubtypeFuel : Nat → StaticType → StaticType → Bool
  | 0, _, _ => false
  | n + 1, s, t =>
    if s = t then true
    else
      match s, t with
      | s, .optional e => decide (s = StaticType.null) || isSubtypeFuel n s e
      | .instanceTy _ sup, t => isSubtypeFuel n sup t
      | .func r1 p1, .func r2 p2 => isSubtypeFuel n r1 r2 && isSubtypeListFuel n p2 p1
      | _, _ => false
/-- Pairwise subtype check between two parameter lists; lists of different
lengths are never related (the source checks parameter count equality
first). -/
def isSubtypeListFuel : Nat → TypeList → TypeList → Bool
  | 0, _, _ => false
  | _ + 1, .nil, .nil => true
  | n + 1, .cons a as, .cons b bs => isSubtypeFuel n a b && isSubtypeListFuel n as bs
  | _ + 1, _, _ => false
end

/-- Each recursive step of `isSubtypeFuel` strips at least one constructor
from one of the two types, so this depth always suffices. -/
def isSubtype (s t : StaticType) : Bool :=
  isSubtypeFuel (StaticType.tsize s + StaticType.tsize t) s t

/-- Modelled from the spec: `actualElementType` from
`code-generator/c-runtime.ts` (not under `src/`): "the storage-level type
seen when reading an array element — `any` for optional/object element
types, else `t`" (array cells of object or optional type are tagged
slots). -/
def actualElementType : StaticType → StaticType
  | .optional _ => .any
  | .objectT => .any
  | .instanceTy _ _ => .any
  | t => t

/-- The diagnostics the embedded handlers can emit.  Each constructor
stands for one message template of `type-checker.ts`; the arguments are
the values interpolated into the template. -/
inductive ErrMsg where
  | notAssignable (rhs lhs : StaticType)
  | elementNotAssignable (rhs element : StaticType)
  | invalidOperands (op : String) (t1 t2 : StaticType)
  | invalidModOperands
  | invalidModAssignOperands
  | mustCompareWithSame (t : StaticType)
  | notSupportedOperator (op : String)
  | badUseOfTypeName (name : String)
  | unknownName (name : String)
  | alreadyDeclared (name : String)
  | voidInitialValue
  | badNumericLiteral
  | unionNotTwoOptions
  | unionNoNullOption
  | unionBothNull
  | unionAnyOption
  | unionOptionalOption (t : StaticType)
  | superNotCalled
  | uninitializedProperty (name : String)
  | cannotCallSuperHere
  | notFoundIn (name sourceFile : String)
  | notExported (name sourceFile : String)
deriving DecidableEq, Repr

/-- The per-identifier record held in a name table
(`NameInfo` of `names.ts`, not under `src/`; modelled from the spec: "a
name info record containing the bound static type plus flags `isConst`,
`isFunction`, `isTypeName`, `isExported`"). -/
structure NameInfo where
  type : StaticType
  isConst : Bool := false
  isFunction : Bool := false
  isTypeName : Bool := false
  isExported : Bool := false
deriving DecidableEq, Repr

/-- One scope's name-to-info map (insertion at the front). -/
abbrev Scope := List (String × NameInfo)

/-- Modelled from the spec: the name-table chain of `names.ts` (not under
`src/`).  A table "has a parent (except the outermost global)"; the chain
is represented innermost-scope-first, so the head scope is the current
table and the tail is its parent chain. -/
abbrev NameTable := List Scope

/-- Name lookup inside a single scope's map. -/
def scopeLookup : Scope → String → Option NameInfo
  | [], _ => none
  | (k, v) :: rest, name => if k = name then some v else scopeLookup rest name

/-- Modelled from the spec: `lookup(name)` "searches the chain to the
root". -/
def ntLookup : NameTable → String → Option NameInfo
  | [], _ => none
  | scope :: rest, name =>
    match scopeLookup scope name with
    | some info => some info
    | none => ntLookup rest name

/-- Modelled from the spec: `lookupInThis` "queries only the current
table". -/
def ntLookupInThis : NameTable → String → Option NameInfo
  | [], _ => none
  | scope :: _, name => scopeLookup scope name

/-- Modelled from the spec: `record` of `names.ts`; "a name may be
recorded once per scope; re-recording fails".  Returns the updated chain
and whether recording succeeded. -/
def ntRecord : NameTable → String → NameInfo → NameTable × Bool
  | [], name, info => ([[(name, info)]], true)
  | scope :: rest, name, info =>
    match scopeLookup scope name with
    | some _ => (scope :: rest, false)
    | none => (((name, info) :: scope) :: rest, true)

/-- Modelled from the spec: `importInfo` of `GlobalNameTable` (`names.ts`,
not under `src/`): "copies a single symbol from an externally-produced
table into the global scope" under the imported name. -/
def ntImportInfo : NameTable → String → NameInfo → NameTable
  | [], name, info => [[(name, info)]]
  | scope :: rest, name, info => ((name, info) :: scope) :: rest

/-- The outcome of one expression-handler step: the diagnostics it pushes,
the coercion flags it stores in the side-table for the left and right
operand nodes (`addCoercionFlag` is a no-op during pass 1, which the
handlers reproduce through their `firstPass` argument), the static type it
stores for the whole node where the handler does so, and the checker's
`result` type afterwards. -/
structure OpOut where
  errs : List ErrMsg
  coerceLeft : Bool := false
  coerceRight : Bool := false
  nodeType : Option StaticType := none
  result : StaticType
deriving DecidableEq, Repr

/-- Character class of the integer regular expression `[0-9A-Fa-fXx]`
used by `TypeChecker.numericLiteral`. -/
def intRegexChar (c : Char) : Bool :=
  decide (('0' ≤ c ∧ c ≤ '9') ∨ ('A' ≤ c ∧ c ≤ 'F') ∨ ('a' ≤ c ∧ c ≤ 'f') ∨ c = 'X' ∨ c = 'x')

/-- Character class of the float regular expression `[0-9.e+\-]`. -/
def floatRegexChar (c : Char) : Bool :=
  decide (('0' ≤ c ∧ c ≤ '9') ∨ c = '.' ∨ c = 'e' ∨ c = '+' ∨ c = '-')

/-- Matches `/^[0-9A-Fa-fXx]+$/` against the raw literal text. -/
def matchesIntRegex (raw : List Char) : Bool :=
  decide (raw ≠ []) && raw.all intRegexChar

/-- Matches `/^[0-9.e+\-]+$/` against the raw literal text. -/
def matchesFloatRegex (raw : List Char) : Bool :=
  decide (raw ≠ []) && raw.all floatRegexChar

/-- Embeds `TypeChecker.numericLiteral` (type-checker.ts lines 172-182).
The literal's raw text (`node.extra?.raw`) is taken as its list of
characters; the two regular expressions `/^[0-9A-Fa-fXx]+$/` and
`/^[0-9.e+\-]+$/` are rendered as nonempty-and-all-characters-in-class
tests.  Returns the pushed diagnostics and the checker's `result` type;
when both regular expressions fail, the assertion fails and the previous
`result` is left in place, as in the source. -/
def numericLiteral (prev : StaticType) (raw : List Char) : List ErrMsg × StaticType :=
  if matchesIntRegex raw then ([], .integer)
  else if matchesFloatRegex raw then ([], .float)
  else ([.badNumericLiteral], prev)

/-- Spec-side predicate, for comparison with the handler: the raw text is
integer syntax in the sense of the claim, i.e. a decimal integer literal
(digits only) or a hexadecimal one (`0x`/`0X` prefix followed by hex
digits). -/
def decChar (c : Char) : Bool :=
  decide ('0' ≤ c ∧ c ≤ '9')

/-- A hexadecimal digit. -/
def hexChar (c : Char) : Bool :=
  decide (('0' ≤ c ∧ c ≤ '9') ∨ ('A' ≤ c ∧ c ≤ 'F') ∨ ('a' ≤ c ∧ c ≤ 'f'))

/-- Decimal-or-hexadecimal integer syntax. -/
def decimalOrHex (raw : List Char) : Bool :=
  (decide (raw ≠ []) && raw.all decChar) ||
  (match raw with
   | '0' :: x :: rest =>
     (decide (x = 'x') || decide (x = 'X')) && decide (rest ≠ []) && rest.all hexChar
   | _ => false)

/-- Whether a type is an `ArrayType`. -/
def isArrayType : StaticType → Bool
  | .array _ => true
  | _ => false

/-- Whether a type is an `OptionalType`. -/
def isOptionalType : StaticType → Bool
  | .optional _ => true
  | _ => false

/-- Embeds `TypeChecker.isConsistentOnFirstPass` (type-checker.ts lines
1327-1333): during pass 1 only, an `any`/array pairing also counts as
consistent. -/
def isConsistentOnFirstPass (firstPass : Bool) (t1 t2 : StaticType) : Bool :=
  if firstPass then
    (decide (t1 = StaticType.any) && isArrayType t2) ||
      (isArrayType t1 && decide (t2 = StaticType.any))
  else false

/-- Embeds `TypeChecker.binaryExpression` (type-checker.ts lines 653-736),
after the two operand visits have produced `lt` and `rt` and excluding the
`instanceof` dispatch (handled by `instanceofExpression` before this
point).  The operator groups, their assertions, and their coercion and
result behaviour mirror the source line by line. -/
def binaryExpression (firstPass : Bool) (op : String) (lt rt : StaticType) : OpOut :=
  if op = "==" ∨ op = "!=" ∨ op = "===" ∨ op = "!==" then
    if lt = .any ∨ rt = .any then
      { errs := [], coerceLeft := !firstPass, coerceRight := !firstPass, result := .boolean }
    else if lt = .boolean ∨ rt = .boolean ∨ lt = .stringT ∨ rt = .stringT then
      { errs :=
          if lt = rt then []
          else [.mustCompareWithSame (if lt = .boolean ∨ rt = .boolean then .boolean else .stringT)],
        coerceLeft := !firstPass, coerceRight := !firstPass, result := .boolean }
    else
      { errs := if isSubtype lt rt ∨ isSubtype rt lt then [] else [.invalidOperands op lt rt],
        result := .boolean }
  else if op = "<" ∨ op = "<=" ∨ op = ">" ∨ op = ">=" then
    if (lt = .any ∨ rt = .any) ∨ (lt = .stringT ∧ rt = .stringT) then
      { errs := [], coerceLeft := !firstPass, coerceRight := !firstPass, result := .boolean }
    else
      { errs := if isNumeric lt ∧ isNumeric rt then [] else [.invalidOperands op lt rt],
        result := .boolean }
  else if op = "+" ∨ op = "-" ∨ op = "*" ∨ op = "/" ∨ op = "**" then
    let errs : List ErrMsg :=
      if (isNumeric lt ∨ lt = .any) ∧ (isNumeric rt ∨ rt = .any) then []
      else [.invalidOperands op lt rt]
    if lt = .any ∨ rt = .any then
      { errs := errs, coerceLeft := !firstPass, coerceRight := !firstPass, result := .any }
    else if lt = .float ∨ rt = .float then
      { errs := errs, nodeType := if op = "**" ∧ firstPass = false then some .float else none,
        result := .float }
    else
      { errs := errs, nodeType := if op = "**" ∧ firstPass = false then some .integer else none,
        result := .integer }
  else if op = "%" then
    let errs : List ErrMsg :=
      if (lt = .integer ∨ lt = .any) ∧ (rt = .integer ∨ rt = .any) then []
      else [.invalidModOperands]
    if lt = .any ∨ rt = .any then
      { errs := errs, coerceLeft := !firstPass, coerceRight := !firstPass, result := .any }
    else
      { errs := errs, result := .integer }
  else if op = "|" ∨ op = "^" ∨ op = "&" ∨ op = "<<" ∨ op = ">>" ∨ op = ">>>" then
    { errs := if lt = .integer ∧ rt = .integer then [] else [.invalidOperands op lt rt],
      result := .integer }
  else
    { errs := [.notSupportedOperator op], result := .boolean }

/-- Embeds the identifier-left-hand-side part of
`TypeChecker.assignmentExpression` (type-checker.ts lines 770-815), after
`assertLvalue` and the two operand visits have produced `lt` and `rt`
(member left-hand sides are dispatched to `memberAssignmentExpression`
before this point). -/
def assignmentExpression (firstPass : Bool) (op : String) (lt rt : StaticType) : OpOut :=
  if op = "=" then
    if isConsistent rt lt ∨ isConsistentOnFirstPass firstPass rt lt then
      { errs := [], coerceLeft := !firstPass, coerceRight := !firstPass, result := lt }
    else
      { errs := if isSubtype rt lt then [] else [.notAssignable rt lt], result := lt }
  else if op = "+=" ∨ op = "-=" ∨ op = "*=" ∨ op = "/=" then
    let errs : List ErrMsg :=
      if (isNumeric lt ∨ lt = .any) ∧ (isNumeric rt ∨ rt = .any) then []
      else [.invalidOperands op lt rt]
    if lt = .any ∨ rt = .any then
      { errs := errs, coerceLeft := !firstPass, coerceRight := !firstPass, result := lt }
    else
      { errs := errs, result := lt }
  else if op = "%=" then
    let errs : List ErrMsg :=
      if (lt = .integer ∨ lt = .any) ∧ (rt = .integer ∨ rt = .any) then []
      else [.invalidModAssignOperands]
    if lt = .any ∨ rt = .any then
      { errs := errs, coerceLeft := !firstPass, coerceRight := !firstPass, result := lt }
    else
      { errs := errs, result := lt }
  else if op = "|=" ∨ op = "^=" ∨ op = "&=" ∨ op = "%=" ∨ op = "<<=" ∨ op = ">>=" then
    { errs := if lt = .integer ∧ rt = .integer then [] else [.invalidOperands op lt rt],
      result := lt }
  else
    { errs := [.notSupportedOperator op], result := lt }

/-- Embeds `TypeChecker.memberAssignmentExpression` (type-checker.ts lines
817-863) after `assertLvalue`, `checkMemberExpr` (whose boolean outcome is
`checked`) and the right-operand visit have run.  `computed` is
`leftNode.computed`, `elementType` is the checker's `result` after
`checkMemberExpr`, and `rightType` the right operand's type.  The
`!checked && computed` early return (unknown array type) is the first
branch. -/
def memberAssignmentExpression (firstPass checked computed : Bool)
    (elementType rightType : StaticType) (op : String) : OpOut :=
  if checked = false ∧ computed = true then
    { errs := [], result := .any }
  else
    let actualType : StaticType :=
      if computed then actualElementType elementType
      else if checked then (if isPrimitiveType elementType then .any else elementType)
      else elementType
    if op = "=" then
      if isConsistent rightType elementType then
        { errs := [], coerceLeft := !firstPass, coerceRight := !firstPass, result := actualType }
      else
        { errs :=
            if isSubtype rightType elementType then []
            else [.elementNotAssignable rightType elementType],
          coerceLeft := !firstPass, coerceRight := !firstPass, result := actualType }
    else if op = "+=" ∨ op = "-=" ∨ op = "*=" ∨ op = "/=" then
      { errs :=
          if (isNumeric elementType ∨ elementType = .any) ∧
              (isNumeric rightType ∨ rightType = .any) then []
          else [.invalidOperands op elementType rightType],
        coerceLeft := !firstPass, coerceRight := !firstPass, result := actualType }
    else
      { errs := [.notSupportedOperator op], result := actualType }

/-- Embeds `TypeChecker.tsUnionType` (type-checker.ts lines 1295-1314),
after the two option annotations have been resolved to `t1` and `t2`;
`n` is `node.types.length`.  The handler asserts, in order: exactly two
options, at least one option `null`/`undefined`, at least one non-null
option, the non-null option (after the swap) not `any`, and not itself an
optional type; it then builds the optional type around the non-null
option regardless of failed assertions. -/
def tsUnionType (n : Nat) (t1 t2 : StaticType) : List ErrMsg × StaticType :=
  let e1 : List ErrMsg := if n = 2 then [] else [.unionNotTwoOptions]
  let e2 : List ErrMsg := if t1 = .null ∨ t2 = .null then [] else [.unionNoNullOption]
  let e3 : List ErrMsg := if t1 ≠ .null ∨ t2 ≠ .null then [] else [.unionBothNull]
  let u1 : StaticType := if t1 = .null then t2 else t1
  let e4 : List ErrMsg := if u1 ≠ .any then [] else [.unionAnyOption]
  let e5 : List ErrMsg := if isOptionalType u1 = false then [] else [.unionOptionalOption u1]
  (e1 ++ e2 ++ e3 ++ e4 ++ e5, .optional u1)

/-- The fragment of the Babel expression AST that the narrowing claim
exercises: identifiers, numeric literals, and binary expressions. -/
inductive Expr where
  | ident (name : String)
  | numLit (raw : List Char)
  | binary (op : String) (left right : Expr)
deriving DecidableEq, Repr

/-- The fragment of the Babel statement AST that the narrowing claim
exercises.  `varDecl` is one `VariableDeclarator` of a `const`/`let`
declaration whose type annotation, if any, has already been resolved to a
static type. -/
inductive Stmt where
  | exprStmt (e : Expr)
  | ifStmt (test : Expr) (conseq : Stmt) (alt : Option Stmt)
  | whileStmt (test : Expr) (body : Stmt)
  | block (body : List Stmt)
  | varDecl (isConst : Bool) (name : String) (anno : Option StaticType) (init : Option Expr)

/-- The mutable checker state threaded by the visitor: the accumulated
error log (messages only; source positions are dropped), the current
`result` type, and the `firstPass` flag. -/
structure TCState where
  errs : List ErrMsg
  result : StaticType
  firstPass : Bool
deriving DecidableEq, Repr

/-- Embeds `TypeChecker.identifier` (type-checker.ts lines 184-204):
`undefined` resolves to the `null` type; otherwise the name is looked up
along the scope chain and its recorded type becomes the result — with no
refinement of any kind applied to the recorded type; a type name is
rejected; an unknown name is an error except during pass 1. -/
def identifier (name : String) (env : NameTable) (st : TCState) : TCState :=
  if name = "undefined" then
    { st with result := .null }
  else
    match ntLookup env name with
    | some info =>
      if info.isTypeName then
        { st with errs := st.errs ++ [.badUseOfTypeName name], result := .any }
      else
        { st with result := info.type }
    | none =>
      if st.firstPass then
        { st with result := .any }
      else
        { st with errs := st.errs ++ [.unknownName name], result := .any }

/-- Embeds the expression dispatch of the visitor for the `Expr` fragment:
`identifier`, `numericLiteral` and `binaryExpression` (the latter visits
the left then the right operand and then applies the operator logic). -/
def visitExpr : Expr → NameTable → TCState → TCState
  | .ident name, env, st => identifier name env st
  | .numLit raw, _, st =>
    let r := numericLiteral st.result raw
    { st with errs := st.errs ++ r.1, result := r.2 }
  | .binary op l r, env, st =>
    let st1 := visitExpr l env st
    let lt := st1.result
    let st2 := visitExpr r env st1
    let rt := st2.result
    let o := binaryExpression st2.firstPass op lt rt
    { st2 with errs := st2.errs ++ o.errs, result := o.result }

/-- Embeds `TypeChecker.checkVariableDeclarator` (type-checker.ts lines
430-472): in pass 2 an already-declared (global) variable keeps its
recorded type; otherwise the annotation, if present, fixes the variable
type; an initializer is visited and checked against the variable type by
consistency (coercion) or subtyping; the variable is recorded unless it
was already declared.  The `inExport` flag of the source is not modelled
(no claim depends on exports of variable declarations). -/
def checkVariableDeclarator (isConst : Bool) (name : String) (anno : Option StaticType)
    (init : Option Expr) (env : NameTable) (st : TCState) : NameTable × TCState :=
  let looked : Option NameInfo := if st.firstPass then none else ntLookupInThis env name
  let alreadyDeclared : Bool := looked.isSome
  let varTypeA : Option StaticType :=
    match looked with
    | some info => some info.type
    | none => none
  let varTypeB : Option StaticType :=
    match varTypeA, anno with
    | none, some a => some a
    | v, _ => v
  let step : Option StaticType × TCState :=
    match init with
    | none => (varTypeB, st)
    | some e =>
      let st1 := visitExpr e env st
      let st2 :=
        if st1.result = StaticType.void then
          { st1 with errs := st1.errs ++ [ErrMsg.voidInitialValue] }
        else st1
      match varTypeB with
      | none => (some st2.result, st2)
      | some vt =>
        if isConsistent st2.result vt then (some vt, st2)
        else if isSubtype st2.result vt then (some vt, st2)
        else (some vt, { st2 with errs := st2.errs ++ [ErrMsg.notAssignable st2.result vt] })
  let varType : StaticType :=
    match step.1 with
    | some v => v
    | none => StaticType.any
  let st3 := step.2
  if alreadyDeclared then (env, st3)
  else
    let r := ntRecord env name { type := varType, isConst := isConst }
    if r.2 then (r.1, st3)
    else (r.1, { st3 with errs := st3.errs ++ [ErrMsg.alreadyDeclared name] })

/-- Embeds the statement dispatch of the visitor for the `Stmt` fragment,
with an explicit recursion-depth argument so that concrete programs
evaluate by kernel reduction (any depth at least the statement-nesting
depth gives the source behaviour).  `ifStatement` (type-checker.ts lines
212-218) visits the test, the consequent and the alternate with the same
name table — it installs no narrowed binding for either branch;
`whileStatement` (lines 206-210) likewise; `blockStatement` (lines
243-251) builds a fresh block table whose parent is the current one;
`expressionStatement` visits its expression.  The boolean-coercion marks
on test expressions touch only the side-table, not the error log or the
tables, and are omitted. -/
def visitStmtFuel : Nat → Stmt → NameTable → TCState → NameTable × TCState
  | 0, _, env, st => (env, st)
  | n + 1, s, env, st =>
    match s with
    | .exprStmt e => (env, visitExpr e env st)
    | .ifStmt test conseq alt =>
      let st1 := visitExpr test env st
      let r2 := visitStmtFuel n conseq env st1
      match alt with
      | some a => visitStmtFuel n a r2.1 r2.2
      | none => r2
    | .whileStmt test body =>
      let st1 := visitExpr test env st
      visitStmtFuel n body env st1
    | .block body =>
      let child : NameTable := [] :: env
      let r := body.foldl (fun acc s2 => visitStmtFuel n s2 acc.1 acc.2) (child, st)
      (env, r.2)
    | .varDecl isConst name anno init => checkVariableDeclarator isConst name anno init env st

/-- The state of a `ConstructorChecker` (type-checker.ts lines 1391-1405):
the top-level depth counter, whether a top-level `super()` call has been
seen, and the per-class map from declared property names to their
initialised flag (string-keyed JavaScript objects preserve insertion
order, so the map is an association list). -/
structure CCState where
  toplevel : Nat
  hasSuperCall : Bool
  properties : List (String × Bool)
deriving DecidableEq, Repr

/-- Embeds `ConstructorChecker.superConstructorCall` (type-checker.ts
lines 1452-1459): only when the call is at top level (depth 1) does it
assert that no top-level `super()` was seen before — pushing "cannot call
super() here" on a duplicate — and record the call; at any other depth it
does nothing.  The delegated `TypeChecker.superConstructorCall` argument
checking emits no constructor-discipline diagnostics and is not modelled
here. -/
def superConstructorCall (st : CCState) : CCState × List ErrMsg :=
  if st.toplevel = 1 then
    ({ st with hasSuperCall := true },
     if st.hasSuperCall then [ErrMsg.cannotCallSuperHere] else [])
  else (st, [])

/-- Sets a property's initialised flag, adding the key when absent
(JavaScript object-assignment semantics of `this.properties[name] =
true`). -/
def markProperty : List (String × Bool) → String → List (String × Bool)
  | [], name => [(name, true)]
  | (p, f) :: rest, name =>
    if p = name then (p, true) :: rest else (p, f) :: markProperty rest name

/-- The fragment of the statement AST walked by the constructor
validator: a `super(...)` call statement, an assignment statement whose
left-hand side is a member expression (`objIsThis` says whether the object
is `this`, `computed` whether the access is `a[b]`-shaped), and the
compound statements whose overridden handlers bracket their bodies with
the depth counter. -/
inductive CStmt where
  | superCall
  | memberAssign (prop : String) (op : String) (computed objIsThis : Bool)
  | ifStmt (conseq : CStmt) (alt : Option CStmt)
  | whileStmt (body : CStmt)
  | block (body : List CStmt)
  | otherStmt

/-- Embeds the `ConstructorChecker` walk over the `CStmt` fragment, with
an explicit recursion-depth argument so that concrete constructor bodies
evaluate by kernel reduction.  The overridden `ifStatement`,
`whileStatement` and `blockStatement` handlers (type-checker.ts lines
1416-1438) increment the depth, delegate, and decrement it; a call
statement whose callee is `super` reaches `superConstructorCall`; an
assignment statement reaches the overridden `memberAssignmentExpression`
(lines 1461-1468), which after delegation marks `prop` initialised when
the statement is at top level, the operator is `=`, the access is not
computed and the object is `this`.  Only the constructor-discipline
diagnostics are collected; the delegated type checking of the underlying
`TypeChecker` is orthogonal to them. -/
def ccVisitFuel : Nat → CStmt → CCState → CCState × List ErrMsg
  | 0, _, st => (st, [])
  | n + 1, s, st =>
    match s with
    | .superCall => superConstructorCall st
    | .memberAssign prop op computed objIsThis =>
      if st.toplevel = 1 ∧ op = "=" ∧ computed = false ∧ objIsThis = true then
        ({ st with properties := markProperty st.properties prop }, [])
      else (st, [])
    | .ifStmt conseq alt =>
      let st1 := { st with toplevel := st.toplevel + 1 }
      let r1 := ccVisitFuel n conseq st1
      let r2 :=
        match alt with
        | some a =>
          let r := ccVisitFuel n a r1.1
          (r.1, r1.2 ++ r.2)
        | none => r1
      ({ r2.1 with toplevel := r2.1.toplevel - 1 }, r2.2)
    | .whileStmt body =>
      let r := ccVisitFuel n body { st with toplevel := st.toplevel + 1 }
      ({ r.1 with toplevel := r.1.toplevel - 1 }, r.2)
    | .block body =>
      let r := body.foldl
        (fun acc s2 =>
          let r2 := ccVisitFuel n s2 acc.1
          (r2.1, acc.2 ++ r2.2))
        ({ st with toplevel := st.toplevel + 1 }, ([] : List ErrMsg))
      ({ r.1 with toplevel := r.1.toplevel - 1 }, r.2)
    | .otherStmt => (st, [])

/-- Embeds `ConstructorChecker.isValid` (type-checker.ts lines 1407-1414):
a single `error` slot is initialised to "super() is not called" unless a
top-level `super()` was seen or the class extends the root object type
(`extendsObj`), and the loop over the property map overwrites that slot
with "uninitialized property: p" for each unflagged property in turn; the
final slot value is returned. -/
def isValid (st : CCState) (extendsObj : Bool) : Option ErrMsg :=
  st.properties.foldl
    (fun err pf => if pf.2 then err else some (ErrMsg.uninitializedProperty pf.1))
    (if st.hasSuperCall = true ∨ extendsObj = true then none else some ErrMsg.superNotCalled)

/-- Embeds the caller of `isValid` in `TypeChecker.classMethod`
(type-checker.ts lines 389-393): the single returned error, if any, is
pushed as one diagnostic. -/
def constructorDiagnostics (st : CCState) (extendsObj : Bool) : List ErrMsg :=
  match isValid st extendsObj with
  | none => []
  | some e => [e]

/-- Spec-side reading of the `isValid` loop: the last property in
insertion order whose initialised flag is unset. -/
def lastUnflagged (props : List (String × Bool)) : Option String :=
  props.foldl (fun acc pf => if pf.2 then acc else some pf.1) none

/-- A source location (line and column) carried by a diagnostic. -/
structure SrcLoc where
  line : Nat
  column : Nat
deriving DecidableEq, Repr

/-- Modelled from the spec: the error log of `utils.ts` (not under
`src/`): it "accumulates (message, source location) pairs and nested
logs"; absorbing another log keeps it verbatim as a nested entry together
with a context string. -/
inductive LogEntry where
  | message (msg : String) (loc : SrcLoc)
  | nested (entries : List LogEntry) (context : String)

/-- The error log itself: an ordered list of entries. -/
structure ErrorLog where
  entries : List LogEntry

/-- Appends a (message, location) pair (`ErrorLog.push`). -/
def ErrorLog.push (l : ErrorLog) (msg : String) (loc : SrcLoc) : ErrorLog :=
  ⟨l.entries ++ [.message msg loc]⟩

/-- Absorbs another log verbatim with a context string (`ErrorLog.add`).
-/
def ErrorLog.add (l : ErrorLog) (other : ErrorLog) (context : String) : ErrorLog :=
  ⟨l.entries ++ [.nested other.entries context]⟩

/-- The behaviour of the caller-supplied `importer` callback on the
requested source file: it returns a name table, or throws an `ErrorLog`,
a string, or some other value (represented by a number). -/
inductive ImporterOutcome where
  | ok (table : NameTable)
  | throwErrorLog (log : ErrorLog)
  | throwString (s : String)
  | throwOther (v : Nat)

/-- The result of `callImporter`: the updated error log, the name table
returned to `importDeclaration` (if any), and the value re-thrown out of
the checker (if any). -/
structure CallImporterOut where
  log : ErrorLog
  returned : Option NameTable
  thrown : Option Nat

/-- Embeds `TypeChecker.callImporter` (type-checker.ts lines 127-155):
a type-kind import is ignored; a non-value kind or a missing importer is
a diagnostic at the import node; otherwise the importer runs — a returned
table is passed through, a thrown `ErrorLog` is absorbed with the source
file as context, a thrown string is pushed with the import node's
location, and any other thrown value propagates. -/
def callImporter (importKind : String) (sourceFile : String) (nodeLoc : SrcLoc)
    (importer : Option ImporterOutcome) (log : ErrorLog) : CallImporterOut :=
  if importKind = "type" then ⟨log, none, none⟩
  else if importKind ≠ "value" then
    ⟨log.push "unsupported import declaration" nodeLoc, none, none⟩
  else
    match importer with
    | none => ⟨log.push "import declaration is not available" nodeLoc, none, none⟩
    | some outcome =>
      match outcome with
      | .ok table => ⟨log, some table, none⟩
      | .throwErrorLog e => ⟨log.add e sourceFile, none, none⟩
      | .throwString s => ⟨log.push s nodeLoc, none, none⟩
      | .throwOther v => ⟨log, none, some v⟩

/-- Embeds the per-specifier body of `TypeChecker.importDeclaration`
(type-checker.ts lines 110-122) for a named import specifier: the name is
looked up in the importer-returned table; a missing name is a diagnostic;
a found name is checked for its exported flag — a diagnostic when unset —
and then `env.importInfo(name, info)` runs unconditionally. -/
def importSpecifier (env : NameTable) (imported : NameTable) (name sourceFile : String) :
    NameTable × List ErrMsg :=
  match ntLookup imported name with
  | none => (env, [ErrMsg.notFoundIn name sourceFile])
  | some info =>
    let errs : List ErrMsg :=
      if info.isExported then [] else [ErrMsg.notExported name sourceFile]
    (ntImportInfo env name info, errs)

/-- The function scope of
`const foo = (x: integer | undefined) => { ... }` from the repository's
own test `optional-type.test.ts` ("optional types are flow-sensitive"):
the parameter `x` is recorded with its declared optional type. -/
def c1Env : NameTable := [[("x", { type := .optional .integer })]]

/-- The body of that test function:
`if (x != undefined) { const y: integer = x }`. -/
def c1Prog : Stmt :=
  .ifStmt (.binary "!=" (.ident "x") (.ident "undefined"))
    (.block [.varDecl true "y" (some .integer) (some (.ident "x"))]) none

/-- A constructor body whose only `super()` call sits inside an `if`
branch: `{ if (...) { super() } }`. -/
def c4Body : CStmt := .block [.ifStmt (.block [.superCall]) none]

end BlueScript

namespace BlueScript

/-- Relates the `isValid` loop to `lastUnflagged`: folding the
error-overwriting step over the property map, starting from an
accumulator already holding the unflagged name `acc` (or the initial slot
`init` when `acc` is `none`), yields the uninitialized-property message of
the last unflagged name, defaulting to `init`. -/
theorem foldl_isValid_eq_lastUnflagged (props : List (String × Bool))
    (acc : Option String) (init : Option ErrMsg) :
    props.foldl (fun err pf => if pf.2 then err else some (ErrMsg.uninitializedProperty pf.1))
        (match acc with
         | some p => some (ErrMsg.uninitializedProperty p)
         | none => init)
      = match props.foldl (fun a pf => if pf.2 then a else some pf.1) acc with
        | some p => some (ErrMsg.uninitializedProperty p)
        | none => init := by
  induction props generalizing acc with
  | nil => rfl
  | cons pf rest ih =>
    by_cases h : pf.2 = true
    · simp only [List.foldl_cons, h, if_true]
      exact ih acc
    · simp only [List.foldl_cons, h, if_false]
      exact ih (some pf.1)

/-- C1.  The claim states flow-sensitive narrowing: inside the positive
branch of a test of an optional-typed identifier against `undefined`, a
read of the identifier yields the element type.  The `ifStatement` and
`identifier` handlers of the checked source perform no narrowing at all,
contradicting the repository's own test suite
(`optional-type.test.ts`, "optional types are flow-sensitive", which
expects `const foo = (x: integer | undefined) => { if (x != undefined) {
const y: integer = x } }` to type-check): in the scope of `foo`'s body,
pass 2 over the branch reads `x` at its declared optional type and
rejects the declaration of `y` with "Type 'integer|undefined' is not
assignable to type 'integer'"; a direct read of `x` from the branch's
block scope also yields the declared optional type, not the element
type. -/
theorem c1_optional_narrowing_missing :
    (visitStmtFuel 5 c1Prog c1Env ⟨[], .any, false⟩).2.errs
        = [.notAssignable (.optional .integer) .integer] ∧
      (visitExpr (.ident "x") ([] :: c1Env) ⟨[], .any, false⟩).result
        = .optional .integer := by
  constructor
  · decide
  · decide

/-- C3 counterexample.  For a class that does not extend the root object
type, whose constructor calls no `super()` and initialises neither of its
two declared properties `a` and `b`, the claim demands three diagnostics
("super() is not called", "uninitialized property: a", "uninitialized
property: b"); the validator emits exactly one — the last unflagged
property — because `isValid` overwrites its single error slot. -/
theorem c3_single_diagnostic_counterexample :
    constructorDiagnostics ⟨0, false, [("a", false), ("b", false)]⟩ false
        = [.uninitializedProperty "b"] ∧
      ErrMsg.superNotCalled ∉
        constructorDiagnostics ⟨0, false, [("a", false), ("b", false)]⟩ false ∧
      ErrMsg.uninitializedProperty "a" ∉
        constructorDiagnostics ⟨0, false, [("a", false), ("b", false)]⟩ false := by
  refine ⟨by decide, by decide, by decide⟩

/-- C3 as amended.  On completion the constructor validator reports at
most one diagnostic: "uninitialized property: p" for the last property
`p` in declaration order whose initialised flag is unset, if any such
property exists; otherwise "super() is not called" when no top-level
`super()` call was recorded and the class does not extend the root object
type; otherwise nothing. -/
theorem c3_validator_reports_last_unflagged (st : CCState) (extendsObj : Bool) :
    isValid st extendsObj
      = match lastUnflagged st.properties with
        | some p => some (ErrMsg.uninitializedProperty p)
        | none =>
          if st.hasSuperCall = true ∨ extendsObj = true then none
          else some ErrMsg.superNotCalled := by
  unfold isValid lastUnflagged
  exact foldl_isValid_eq_lastUnflagged st.properties none _

/-- C4 counterexample.  A constructor whose only `super()` call sits
inside an `if` branch (`{ if (...) { super() } }`): the claim demands the
diagnostic "cannot call super() here" for this non-top-level call, but
the walk of the body emits no diagnostic at all — the call is merely not
recorded as the required top-level `super()` call. -/
theorem c4_nested_super_counterexample :
    (ccVisitFuel 10 c4Body ⟨0, false, []⟩).2 = [] ∧
      (ccVisitFuel 10 c4Body ⟨0, false, []⟩).1.hasSuperCall = false := by
  refine ⟨by decide, by decide⟩

/-- C4 as amended.  A `super(...)` call reports "cannot call super()
here" exactly when it occurs at top level (depth 1) and a top-level
`super(...)` call was already recorded — i.e. only duplicate top-level
calls are reported; a `super(...)` call not at top level produces no such
diagnostic and is not recorded, and the depth counter is unchanged by the
handler. -/
theorem c4_super_diagnostic_only_for_toplevel_duplicates (st : CCState) :
    (superConstructorCall st).2
        = (if st.toplevel = 1 ∧ st.hasSuperCall = true then [ErrMsg.cannotCallSuperHere]
           else []) ∧
      (superConstructorCall st).1.hasSuperCall
        = (if st.toplevel = 1 then true else st.hasSuperCall) ∧
      (superConstructorCall st).1.toplevel = st.toplevel := by
  unfold superConstructorCall
  by_cases h : st.toplevel = 1
  · by_cases h2 : st.hasSuperCall = true <;> simp [h, h2]
  · simp [h]

/-- Every raw text in decimal-or-hexadecimal integer syntax is matched by
the integer regular expression of `numericLiteral` (its character class
contains the decimal digits, the hex digits and the markers `x`/`X`). -/
theorem decimalOrHex_le_intRegex (raw : List Char) (h : decimalOrHex raw = true) :
    matchesIntRegex raw = true := by
  unfold decimalOrHex at h
  rw [Bool.or_eq_true] at h
  rcases h with h | h
  · rw [Bool.and_eq_true] at h
    obtain ⟨hne, hall⟩ := h
    unfold matchesIntRegex
    rw [Bool.and_eq_true]
    refine ⟨hne, ?_⟩
    rw [List.all_eq_true] at hall ⊢
    intro c hc
    have hd := hall c hc
    simp only [decChar, decide_eq_true_eq] at hd
    simp only [intRegexChar, decide_eq_true_eq]
    exact Or.inl hd
  · split at h
    case _ x rest =>
      rw [Bool.and_eq_true, Bool.and_eq_true] at h
      obtain ⟨⟨hx, hne⟩, hall⟩ := h
      unfold matchesIntRegex
      rw [Bool.and_eq_true]
      refine ⟨by simp, ?_⟩
      rw [List.all_eq_true]
      intro c hc
      rcases List.mem_cons.mp hc with hc0 | hc1
      · subst hc0; decide
      · rcases List.mem_cons.mp hc1 with hcx | hcr
        · subst hcx
          rw [Bool.or_eq_true, decide_eq_true_eq, decide_eq_true_eq] at hx
          rcases hx with hx | hx <;> subst hx <;> decide
        · have hh := (List.all_eq_true.mp hall) c hcr
          simp only [hexChar, decide_eq_true_eq] at hh
          simp only [intRegexChar, decide_eq_true_eq]
          rcases hh with hh | hh | hh
          · exact Or.inl hh
          · exact Or.inr (Or.inl hh)
          · exact Or.inr (Or.inr (Or.inl hh))
    case _ => exact absurd h (by simp)

/-- C5 counterexample.  The raw text `2e5` is a well-formed numeric
literal containing an exponent, so the claim assigns it type float; the
handler assigns it type integer without any diagnostic, because `e` lies
in the hex-digit character class of the integer regular expression, even
though `2e5` is not decimal or hexadecimal integer syntax. -/
theorem c5_exponent_literal_counterexample :
    numericLiteral .any ['2', 'e', '5'] = ([], .integer) ∧
      decimalOrHex ['2', 'e', '5'] = false := by
  refine ⟨by decide, by decide⟩

/-- C5 as amended.  For every numeric literal the checker accepts (no
diagnostic), the assigned type is integer exactly when the raw text
matches `/^[0-9A-Fa-fXx]+$/` — a class that contains every decimal or
hexadecimal integer literal but also exponent-only forms such as `2e5` —
and float otherwise. -/
theorem c5_integer_iff_intRegex (prev : StaticType) (raw : List Char)
    (h : (numericLiteral prev raw).1 = []) :
    (((numericLiteral prev raw).2 = .integer) ↔ matchesIntRegex raw = true) ∧
      (matchesIntRegex raw = false → (numericLiteral prev raw).2 = .float) ∧
      (decimalOrHex raw = true → matchesIntRegex raw = true) := by
  unfold numericLiteral at h ⊢
  by_cases hi : matchesIntRegex raw = true
  · simp [hi]
  · by_cases hf : matchesFloatRegex raw = true
    · simp only [hi, if_false, Bool.not_eq_true] at h ⊢
      have hdh : decimalOrHex raw = false := by
        by_contra hcon
        rw [Bool.not_eq_false] at hcon
        exact hi (decimalOrHex_le_intRegex raw hcon)
      simp [hf, hi, hdh]
    · simp [hi, hf] at h

/-- C5 witness: the decimal literal `10` is accepted and typed integer,
via the amended theorem. -/
theorem c5_integer_iff_intRegex_witness :
    (numericLiteral StaticType.any ['1', '0']).2 = StaticType.integer :=
  ((c5_integer_iff_intRegex StaticType.any ['1', '0'] (by decide)).1).mpr (by decide)

/-- C2.  For a pass-2 simple assignment `lhs = rhs` whose left-hand side
is an identifier of type `lt` and whose right-hand type is `rt`: the
handler accepts (pushes no diagnostic) exactly when `rt` is a subtype of
`lt` or the two are consistent; when they are consistent it sets the
coercion flag on both operand nodes; and an acceptance that set no
coercion flag implies the subtype relation. -/
theorem c2_pure_assignment (lt rt : StaticType) :
    ((assignmentExpression false "=" lt rt).errs = []
        ↔ (isSubtype rt lt = true ∨ isConsistent rt lt = true)) ∧
      (isConsistent rt lt = true →
        (assignmentExpression false "=" lt rt).coerceLeft = true ∧
          (assignmentExpression false "=" lt rt).coerceRight = true) ∧
      ((assignmentExpression false "=" lt rt).errs = [] →
        (assignmentExpression false "=" lt rt).coerceLeft = false →
          isSubtype rt lt = true) := by
  unfold assignmentExpression isConsistentOnFirstPass
  by_cases hc : isConsistent rt lt = true
  · simp [hc]
  · by_cases hs : isSubtype rt lt = true <;> simp [hc, hs]

/-- C2 witness: assigning an `any`-typed value to an integer variable is
accepted via consistency and flags both sides for coercion. -/
theorem c2_pure_assignment_witness :
    (assignmentExpression false "=" StaticType.integer StaticType.any).coerceLeft = true ∧
      (assignmentExpression false "=" StaticType.integer StaticType.any).coerceRight = true :=
  (c2_pure_assignment StaticType.integer StaticType.any).2.1 (by decide)

/-- C6.  For the arithmetic operators `+ - * / **`, the handler accepts
exactly when both operand types are numeric or `any`, and the result type
is `any` when either operand is `any`, else float when either operand is
float, else integer. -/
theorem c6_arithmetic (fp : Bool) (op : String) (lt rt : StaticType)
    (hop : op = "+" ∨ op = "-" ∨ op = "*" ∨ op = "/" ∨ op = "**") :
    ((binaryExpression fp op lt rt).errs = []
        ↔ ((isNumeric lt = true ∨ lt = .any) ∧ (isNumeric rt = true ∨ rt = .any))) ∧
      (binaryExpression fp op lt rt).result
        = (if lt = .any ∨ rt = .any then .any
           else if lt = .float ∨ rt = .float then .float else .integer) := by
  rcases hop with h | h | h | h | h <;> subst h <;>
    unfold binaryExpression <;>
    rw [if_neg (by decide), if_neg (by decide), if_pos (by decide)] <;>
    split_ifs <;> simp_all

/-- C6 witness: float to the power of an integer is accepted at type
float, via the theorem at `op := "**"`. -/
theorem c6_arithmetic_witness :
    (binaryExpression false "**" StaticType.float StaticType.integer).result
      = StaticType.float := by
  have h := (c6_arithmetic false "**" StaticType.float StaticType.integer (by decide)).2
  rw [h]
  decide

/-- C7.  A union type annotation is accepted (no diagnostic) exactly when
it has two options of which exactly one is `null`/`undefined` and the
other is neither `null`, `any`, nor an optional type; and the constructed
result is the optional type around the non-null option. -/
theorem c7_union_optional (n : Nat) (t1 t2 : StaticType) :
    ((tsUnionType n t1 t2).1 = []
        ↔ (n = 2 ∧
            ((t1 = .null ∧ t2 ≠ .null ∧ t2 ≠ .any ∧ isOptionalType t2 = false) ∨
             (t2 = .null ∧ t1 ≠ .null ∧ t1 ≠ .any ∧ isOptionalType t1 = false)))) ∧
      (tsUnionType n t1 t2).2 = .optional (if t1 = .null then t2 else t1) := by
  unfold tsUnionType
  constructor
  · by_cases h1 : t1 = .null <;> split_ifs <;> simp_all
  · by_cases h1 : t1 = .null <;> simp [h1]

/-- C7 witness: `integer | null` is accepted and yields the optional
integer type, via the theorem at `n := 2`. -/
theorem c7_union_optional_witness :
    (tsUnionType 2 StaticType.integer StaticType.null).1 = [] ∧
      (tsUnionType 2 StaticType.integer StaticType.null).2
        = StaticType.optional StaticType.integer := by
  have h := c7_union_optional 2 StaticType.integer StaticType.null
  refine ⟨h.1.mpr (by decide), ?_⟩
  rw [h.2]
  decide

/-- C8.  When the importer callback throws during a value-kind import:
a thrown `ErrorLog` is absorbed verbatim into the checker's log with
the imported source file as context; a thrown string is pushed with the location
of the import node; any other thrown value propagates out of
the checker with the log untouched. -/
theorem c8_importer_exceptions (log : ErrorLog) (sourceFile : String) (nodeLoc : SrcLoc)
    (e : ErrorLog) (s : String) (v : Nat) :
    callImporter "value" sourceFile nodeLoc (some (.throwErrorLog e)) log
        = ⟨log.add e sourceFile, none, none⟩ ∧
      callImporter "value" sourceFile nodeLoc (some (.throwString s)) log
        = ⟨log.push s nodeLoc, none, none⟩ ∧
      callImporter "value" sourceFile nodeLoc (some (.throwOther v)) log
        = ⟨log, none, some v⟩ :=
  ⟨rfl, rfl, rfl⟩

/-- C9.  An import specifier whose name is found in the
table returned by the importer but not marked exported logs the not-exported
diagnostic and nevertheless copies the name info into the global scope:
the resulting table is exactly `importInfo`'s extension of the old one,
and looking the name up in it now yields the imported info. -/
theorem c9_rejected_import_copied (env imported : NameTable) (name sourceFile : String)
    (info : NameInfo) (hfound : ntLookup imported name = some info)
    (hexp : info.isExported = false) :
    (importSpecifier env imported name sourceFile).2 = [ErrMsg.notExported name sourceFile] ∧
      (importSpecifier env imported name sourceFile).1 = ntImportInfo env name info ∧
      ntLookup (importSpecifier env imported name sourceFile).1 name = some info := by
  unfold importSpecifier
  rw [hfound]
  refine ⟨by simp [hexp], rfl, ?_⟩
  cases env with
  | nil => simp [ntImportInfo, ntLookup, scopeLookup]
  | cons scope rest => simp [ntImportInfo, ntLookup, scopeLookup]

/-- C9 witness: importing the non-exported `f` from a one-entry table
into an empty global scope logs the diagnostic yet binds `f` globally. -/
theorem c9_rejected_import_copied_witness :
    (importSpecifier [[]] [[("f", { type := StaticType.integer })]] "f" "lib.bs").2
        = [ErrMsg.notExported "f" "lib.bs"] ∧
      ntLookup (importSpecifier [[]] [[("f", { type := StaticType.integer })]] "f" "lib.bs").1 "f"
        = some { type := StaticType.integer } := by
  have h := c9_rejected_import_copied [[]] [[("f", { type := StaticType.integer })]] "f" "lib.bs"
      { type := StaticType.integer } (by decide) (by decide)
  exact ⟨h.1, h.2.2⟩

/-- C10.  Every member or indexed assignment with operator `=` that pass
2 reaches past the unknown-array early return and accepts — whether via
consistency or via a plain subtype relation — sets the coercion flag on
both the left and the right operand nodes. -/
theorem c10_member_assignment_coercion (checked computed : Bool) (et rt : StaticType)
    (hnr : checked = true ∨ computed = false)
    (_hacc : (memberAssignmentExpression false checked computed et rt "=").errs = []) :
    (memberAssignmentExpression false checked computed et rt "=").coerceLeft = true ∧
      (memberAssignmentExpression false checked computed et rt "=").coerceRight = true := by
  have hne : ¬(checked = false ∧ computed = true) := by
    rcases hnr with h | h <;> simp [h]
  unfold memberAssignmentExpression
  rw [if_neg hne]
  by_cases hc : isConsistent rt et = true <;> simp [hc]

/-- C10 witness: storing an integer into an optional-integer property —
a plain subtype case with no `any` involved — still flags both sides. -/
theorem c10_member_assignment_coercion_witness :
    (memberAssignmentExpression false true false (StaticType.optional StaticType.integer)
        StaticType.integer "=").coerceLeft = true ∧
      (memberAssignmentExpression false true false (StaticType.optional StaticType.integer)
        StaticType.integer "=").coerceRight = true :=
  c10_member_assignment_coercion true false (StaticType.optional StaticType.integer)
    StaticType.integer (Or.inl rfl) (by decide)

end BlueScript
